import Mathlib

/-!
Verification of the carousel and lightbox interaction engine of the
portfolio repository.

The development shallow-embeds the pure logic of the source files
`src/hooks/useCarousel.ts` (navigation index arithmetic, autoplay timer
bookkeeping, minimize handling, touch-gesture recognition, lazy-load
eligibility) and `src/components/customUi/Lightbox.tsx` (zoom and pan
state machine).  JavaScript numbers used as slide indices are embedded
as `Int` (with JavaScript remainder `%` embedded as `Int.tmod`, which
matches its truncated semantics); touch coordinates and zoom factors,
which are JavaScript doubles, are embedded as rationals `ℚ` — the
clamping logic under verification is exact and does not depend on
rounding.  React state updates are embedded as explicit state-passing
step functions, and timers as explicit option-valued fields.
-/

namespace Carousel

/-- Transition kind of the carousel, from the `transitionType` prop. -/
inductive TransitionType where
  | slide
  | fade
deriving DecidableEq, Repr

/-- Viewport breakpoint classes returned by the `useBreakpoint` hook. -/
inductive Breakpoint where
  | mobile
  | tablet
  | desktop
deriving DecidableEq, Repr

/-- Responsive item-count configuration (`ResponsiveItemsConfig`). -/
structure ResponsiveItemsConfig where
  mobile : Option Int := none
  tablet : Option Int := none
  desktop : Option Int := none
deriving DecidableEq, Repr

/-- Carousel image record (`CarouselImage`): the fields relevant to the
accessibility announcement. -/
structure CarouselImage where
  alt : String
  caption : Option String := none
deriving DecidableEq, Repr

/-- Embeds `calculateNextIndex` from `useCarousel.ts`: with `loop` the
JavaScript expression is `(currentIndex + 1) % totalImages` (truncated
remainder, `Int.tmod`); with fade transitions it is
`Math.min(currentIndex + 1, totalImages - 1)`; otherwise
`Math.min(currentIndex + 1, totalImages - effectiveItemsToShow)`. -/
def calculateNextIndex (currentIndex totalImages effectiveItemsToShow : Int)
    (loop : Bool) (transitionType : TransitionType) : Int :=
  if loop then
    (currentIndex + 1).tmod totalImages
  else if transitionType = TransitionType.fade then
    min (currentIndex + 1) (totalImages - 1)
  else
    min (currentIndex + 1) (totalImages - effectiveItemsToShow)

/-- Embeds `calculatePreviousIndex`: with `loop` it is
`(currentIndex - 1 + totalImages) % totalImages`, otherwise
`Math.max(currentIndex - 1, 0)`. -/
def calculatePreviousIndex (currentIndex totalImages : Int) (loop : Bool) : Int :=
  if loop then
    (currentIndex - 1 + totalImages).tmod totalImages
  else
    max (currentIndex - 1) 0

/-- Embeds `calculateTotalSlides`: `totalImages` when looping, else
`Math.max(1, totalImages - effectiveItemsToShow + 1)`. -/
def calculateTotalSlides (totalImages effectiveItemsToShow : Int) (loop : Bool) : Int :=
  if loop then
    totalImages
  else
    max 1 (totalImages - effectiveItemsToShow + 1)

/-- Embeds `calculateResponsiveItemsToShow`: resolves the configured item
count against the current breakpoint with the fallback chain
desktop → tablet → mobile → configured default. -/
def calculateResponsiveItemsToShow (itemsToShow : Int)
    (responsiveItems : Option ResponsiveItemsConfig)
    (breakpoint : Option Breakpoint) : Int :=
  match responsiveItems, breakpoint with
  | none, _ => itemsToShow
  | some _, none => itemsToShow
  | some r, some Breakpoint.mobile => r.mobile.getD itemsToShow
  | some r, some Breakpoint.tablet => r.tablet.getD (r.mobile.getD itemsToShow)
  | some r, some Breakpoint.desktop =>
      r.desktop.getD (r.tablet.getD (r.mobile.getD itemsToShow))

/-- Embeds `calculateEffectiveItemsToShow`:
`Math.max(1, Math.min(responsiveItemsToShow, totalImages))`. -/
def calculateEffectiveItemsToShow (responsiveItemsToShow totalImages : Int) : Int :=
  max 1 (min responsiveItemsToShow totalImages)

/-- Parameters taken by the navigation helpers (`NavigationParams`). -/
structure NavigationParams where
  currentIndex : Int
  totalImages : Int
  effectiveItemsToShow : Int
  loop : Bool
  transitionType : TransitionType
  isTransitioning : Bool
  transitionDuration : Int
deriving DecidableEq, Repr

/-- Result of a navigation computation (`NavigationResult`). -/
structure NavigationResult where
  nextIndex : Int
  shouldNavigate : Bool
deriving DecidableEq, Repr

/-- Embeds `getNextIndex`: a no-op result while transitioning, otherwise
`calculateNextIndex` with `shouldNavigate = true`. -/
def getNextIndex (params : NavigationParams) : NavigationResult :=
  if params.isTransitioning then
    { nextIndex := params.currentIndex, shouldNavigate := false }
  else
    { nextIndex := calculateNextIndex params.currentIndex params.totalImages
        params.effectiveItemsToShow params.loop params.transitionType,
      shouldNavigate := true }

/-- Embeds `getPreviousIndex`: a no-op result while transitioning,
otherwise `calculatePreviousIndex` with `shouldNavigate = true`. -/
def getPreviousIndex (params : NavigationParams) : NavigationResult :=
  if params.isTransitioning then
    { nextIndex := params.currentIndex, shouldNavigate := false }
  else
    { nextIndex :=
        calculatePreviousIndex params.currentIndex params.totalImages params.loop,
      shouldNavigate := true }

/-- Embeds `getSlideIndex`: ignored while transitioning or when the
target equals the current index; note that the target is otherwise taken
unchecked. -/
def getSlideIndex (targetIndex currentIndex : Int)
    (isTransitioning : Bool) : NavigationResult :=
  if isTransitioning ∨ targetIndex = currentIndex then
    { nextIndex := currentIndex, shouldNavigate := false }
  else
    { nextIndex := targetIndex, shouldNavigate := true }

/-- Embeds `createSlideChangeAnnouncement`: the screen-reader string for
a slide change, empty when the image is missing. -/
def createSlideChangeAnnouncement (index totalImages : Int)
    (image : Option CarouselImage) : String :=
  match image with
  | none => ""
  | some img =>
      let imageNumber := index + 1
      let captionText :=
        match img.caption with
        | some c => ": " ++ c
        | none => ""
      "Image " ++ toString imageNumber ++ " of " ++ toString totalImages ++
        captionText ++ ". " ++ img.alt

/-- Configuration taken by `calculateMinimizeActions`
(`MinimizeHandlerConfig`); `minimized = none` embeds the JavaScript
`undefined` of the uncontrolled mode, and `hasCallback` embeds the
presence of the `onMinimize` callback. -/
structure MinimizeHandlerConfig where
  isMinimized : Bool
  currentIndex : Int
  savedIndex : Int
  minimized : Option Bool
  hasCallback : Bool
deriving DecidableEq, Repr

/-- Result of `calculateMinimizeActions` (`MinimizeHandlerResult`). -/
structure MinimizeHandlerResult where
  shouldSaveIndex : Bool
  savedIndex : Int
  shouldRestoreIndex : Bool
  restoreIndex : Int
  shouldToggleInternal : Bool
  shouldCallCallback : Bool
deriving DecidableEq, Repr

/-- Embeds `calculateMinimizeActions` from `useCarousel.ts`. -/
def calculateMinimizeActions (config : MinimizeHandlerConfig) : MinimizeHandlerResult :=
  { shouldSaveIndex := !config.isMinimized,
    savedIndex := config.currentIndex,
    shouldRestoreIndex := config.isMinimized,
    restoreIndex := config.savedIndex,
    shouldToggleInternal := config.minimized.isNone,
    shouldCallCallback := config.hasCallback }

/-- Configuration taken by the autoplay helpers
(`AutoplayRestartConfig`); `pauseDuration = none` embeds the omitted
optional field. -/
structure AutoplayRestartConfig where
  autoplay : Bool
  isSingleImage : Bool
  isMinimized : Bool
  autoplayInterval : Int
  pauseDuration : Option Int := none
deriving DecidableEq, Repr

/-- Timer bookkeeping of the autoplay scheduler: `autoplayTimer` holds
the period of the running `setInterval` when present, and
`autoplayPauseTimeout` holds the delay of the pending resume
`setTimeout` when present (embedding `AutoplayTimers`, whose refs hold
timer handles). -/
structure AutoplayTimers where
  autoplayTimer : Option Int
  autoplayPauseTimeout : Option Int
deriving DecidableEq, Repr

/-- Embeds `clearAutoplayTimer`: cancels the repeating interval. -/
def clearAutoplayTimer (timers : AutoplayTimers) : AutoplayTimers :=
  { timers with autoplayTimer := none }

/-- Embeds `clearAutoplayPauseTimeout`: cancels the pending resume. -/
def clearAutoplayPauseTimeout (timers : AutoplayTimers) : AutoplayTimers :=
  { timers with autoplayPauseTimeout := none }

/-- Embeds `clearAllAutoplayTimers`. -/
def clearAllAutoplayTimers (timers : AutoplayTimers) : AutoplayTimers :=
  clearAutoplayPauseTimeout (clearAutoplayTimer timers)

/-- Embeds `startAutoplayTimer`: returns unchanged unless autoplay is
enabled, more than one image exists, and the carousel is not minimized;
otherwise clears both timers and starts the repeating interval. -/
def startAutoplayTimer (timers : AutoplayTimers)
    (config : AutoplayRestartConfig) : AutoplayTimers :=
  if !config.autoplay ∨ config.isSingleImage ∨ config.isMinimized then
    timers
  else
    { clearAllAutoplayTimers timers with autoplayTimer := some config.autoplayInterval }

/-- Embeds `restartAutoplayWithDelay`: under the same guard, clears both
timers and schedules the resume timeout after
`config.pauseDuration ?? 2000` milliseconds. -/
def restartAutoplayWithDelay (timers : AutoplayTimers)
    (config : AutoplayRestartConfig) : AutoplayTimers :=
  if !config.autoplay ∨ config.isSingleImage ∨ config.isMinimized then
    timers
  else
    { clearAllAutoplayTimers timers with
        autoplayPauseTimeout := some (config.pauseDuration.getD 2000) }

/-- Embeds `pauseAutoplay` (used on mouse-enter). -/
def pauseAutoplay (timers : AutoplayTimers) : AutoplayTimers :=
  clearAllAutoplayTimers timers

/-- Orientation of the carousel. -/
inductive Orientation where
  | horizontal
  | vertical
deriving DecidableEq, Repr

/-- Touch-gesture state (`TouchState`): the recorded start and end
coordinates on the orientation axis, `none` embedding `null`. -/
structure TouchState where
  touchStart : Option ℚ
  touchEnd : Option ℚ
deriving DecidableEq, Repr

/-- Touch handler configuration (`TouchHandlerConfig`). -/
structure TouchHandlerConfig where
  orientation : Orientation
  minSwipeDistance : Option ℚ := none
deriving DecidableEq, Repr

/-- Discrete swipe direction (`SwipeDirection` without the null case,
which is embedded as `Option`). -/
inductive SwipeDirection where
  | next
  | previous
deriving DecidableEq, Repr

/-- JavaScript truthiness test applied by `detectSwipeDirection` to the
nullable coordinates: `null` and `0` are both falsy. -/
def jsFalsyCoordinate (value : Option ℚ) : Bool :=
  match value with
  | none => true
  | some x => x = 0

/-- Embeds `detectSwipeDirection` from `useCarousel.ts`: the guard
`!touchStart || !touchEnd` treats a missing or zero coordinate as
absent; otherwise `distance = touchStart - touchEnd` is compared against
`minSwipeDistance ?? 50`. -/
def detectSwipeDirection (touchState : TouchState)
    (config : TouchHandlerConfig) : Option SwipeDirection :=
  let minSwipeDistance := config.minSwipeDistance.getD 50
  if jsFalsyCoordinate touchState.touchStart ∨ jsFalsyCoordinate touchState.touchEnd then
    none
  else
    let distance := touchState.touchStart.getD 0 - touchState.touchEnd.getD 0
    if |distance| < minSwipeDistance then
      none
    else if distance > minSwipeDistance then
      some SwipeDirection.next
    else if distance < -minSwipeDistance then
      some SwipeDirection.previous
    else
      none

/-- Embeds the handler returned by `createTouchStartHandler`: it sets
`touchEnd` to `null` and records the start coordinate of the first
touch point on the orientation axis. -/
def touchStartHandlerStep (coordinate : ℚ) : TouchState :=
  { touchStart := some coordinate, touchEnd := none }

/-- Embeds the handler returned by `createTouchMoveHandler`: it records
the end coordinate of the first touch point. -/
def touchMoveHandlerStep (touchState : TouchState) (coordinate : ℚ) : TouchState :=
  { touchState with touchEnd := some coordinate }

/-- Embeds the handler returned by `createTouchEndHandler`: it only
detects the swipe and reports it to `onSwipe`; the handler body contains
no state setter, so the touch state is returned unchanged. -/
def touchEndHandlerStep (touchState : TouchState)
    (config : TouchHandlerConfig) : TouchState × Option SwipeDirection :=
  (touchState, detectSwipeDirection touchState config)

/-- Embeds `getInitialImagesToLoad`: the set
`{0, …, min(effectiveItemsToShow + 1, totalImages) - 1}` of indices
loaded immediately. -/
def getInitialImagesToLoad (effectiveItemsToShow totalImages : Int) : Finset ℕ :=
  Finset.range (min (effectiveItemsToShow + 1) totalImages).toNat

/-- Embeds one entry of the `IntersectionObserver` callback installed by
`createLazyLoadingObserver`: an intersecting entry inserts its index
into the loaded set; nothing is ever removed here. -/
def lazyLoadObserverStep (loadedImages : Finset ℕ) (index : ℕ)
    (isIntersecting : Bool) : Finset ℕ :=
  if isIntersecting then insert index loadedImages else loadedImages

/-- Embeds the effect `useEffect(..., [images.length,
effectiveItemsToShow])` of `useCarousel`: whenever the image count or
the effective item count changes, `setLoadedImages(initialImages)`
replaces the whole loaded set with the initial window. -/
def initialLoadEffectStep (effectiveItemsToShow totalImages : Int) : Finset ℕ :=
  getInitialImagesToLoad effectiveItemsToShow totalImages

/-- Static configuration of one carousel instance: the props of
`useCarousel` that the navigation logic reads. -/
structure CarouselConfig where
  itemsToShow : Int := 1
  responsiveItems : Option ResponsiveItemsConfig := none
  loop : Bool := true
  transitionType : TransitionType := TransitionType.slide
  transitionDuration : Int := 300
deriving DecidableEq, Repr

/-- Mutable engine state of `useCarousel` in the uncontrolled minimize
mode (the `minimized` prop left `undefined`): the `useState` cells the
navigation, minimize and lightbox handlers read and write. -/
structure CarState where
  currentIndex : Int
  isTransitioning : Bool
  savedIndex : Int
  internalMinimized : Bool
  effectiveItemsToShow : Int
  lightboxOpen : Bool
  lightboxIndex : Int
  announcement : String
deriving DecidableEq, Repr

/-- Embeds the JavaScript indexing `images[i]`, which yields `undefined`
for an out-of-range or negative index. -/
def imageAt (images : List CarouselImage) (i : Int) : Option CarouselImage :=
  if i < 0 then none else images.get? i.toNat

/-- Events the carousel engine reacts to: the exported handlers
(`goToNext`, `goToPrevious`, `goToSlide`, `handleMinimize`,
`openLightbox`, `closeLightbox`, `handleLightboxNavigate`), the
transition-clear timeout, and a breakpoint change recomputing
`effectiveItemsToShow`. -/
inductive CarEvent where
  | next
  | prev
  | slide (targetIndex : Int)
  | minimizeToggle
  | openLightbox (index : Int)
  | closeLightbox
  | lightboxNavigate (index : Int)
  | transitionEnd
  | breakpointChange (breakpoint : Option Breakpoint)

/-- Navigation parameters assembled by `goToNext` and `goToPrevious`
from the current state and props. -/
def navParamsOf (images : List CarouselImage) (cfg : CarouselConfig)
    (s : CarState) : NavigationParams :=
  { currentIndex := s.currentIndex,
    totalImages := (images.length : Int),
    effectiveItemsToShow := s.effectiveItemsToShow,
    loop := cfg.loop,
    transitionType := cfg.transitionType,
    isTransitioning := s.isTransitioning,
    transitionDuration := cfg.transitionDuration }

/-- Shared tail of the three navigation handlers: set
`isTransitioning = true`, update `currentIndex`, and announce the new
slide (the `setTimeout` clearing the transition is the separate
`transitionEnd` event). -/
def applyNavigation (images : List CarouselImage) (s : CarState)
    (result : NavigationResult) : CarState :=
  if result.shouldNavigate then
    { s with
        isTransitioning := true,
        currentIndex := result.nextIndex,
        announcement := createSlideChangeAnnouncement result.nextIndex
          (images.length : Int) (imageAt images result.nextIndex) }
  else
    s

/-- One step of the carousel engine, embedding the handler bodies of
`useCarousel` (uncontrolled minimize mode). -/
def stepCar (images : List CarouselImage) (cfg : CarouselConfig)
    (s : CarState) (e : CarEvent) : CarState :=
  match e with
  | CarEvent.next =>
      applyNavigation images s (getNextIndex (navParamsOf images cfg s))
  | CarEvent.prev =>
      applyNavigation images s (getPreviousIndex (navParamsOf images cfg s))
  | CarEvent.slide targetIndex =>
      applyNavigation images s (getSlideIndex targetIndex s.currentIndex s.isTransitioning)
  | CarEvent.minimizeToggle =>
      let actions := calculateMinimizeActions
        { isMinimized := s.internalMinimized,
          currentIndex := s.currentIndex,
          savedIndex := s.savedIndex,
          minimized := none,
          hasCallback := false }
      let s1 := if actions.shouldSaveIndex then { s with savedIndex := actions.savedIndex } else s
      let s2 := if actions.shouldRestoreIndex then { s1 with currentIndex := actions.restoreIndex } else s1
      if actions.shouldToggleInternal then { s2 with internalMinimized := !s2.internalMinimized } else s2
  | CarEvent.openLightbox index =>
      { s with lightboxIndex := index, lightboxOpen := true }
  | CarEvent.closeLightbox =>
      { s with lightboxOpen := false }
  | CarEvent.lightboxNavigate index =>
      { s with lightboxIndex := index, currentIndex := index }
  | CarEvent.transitionEnd =>
      { s with isTransitioning := false }
  | CarEvent.breakpointChange breakpoint =>
      let eff := calculateEffectiveItemsToShow
        (calculateResponsiveItemsToShow cfg.itemsToShow cfg.responsiveItems breakpoint)
        (images.length : Int)
      { s with effectiveItemsToShow := eff }

/-- Initial state of a mounted carousel: every index starts at 0 and
`effectiveItemsToShow` is computed from the props and the initial
breakpoint. -/
def initCarState (images : List CarouselImage) (cfg : CarouselConfig)
    (breakpoint : Option Breakpoint) : CarState :=
  { currentIndex := 0,
    isTransitioning := false,
    savedIndex := 0,
    internalMinimized := false,
    effectiveItemsToShow :=
      calculateEffectiveItemsToShow
        (calculateResponsiveItemsToShow cfg.itemsToShow cfg.responsiveItems breakpoint)
        (images.length : Int),
    lightboxOpen := false,
    lightboxIndex := 0,
    announcement := "" }

/-- Events as the rendered component can actually deliver them:
`goToSlide` is invoked only by the dot indicators (whose indices range
below `totalSlides ≤ images.length`), and the lightbox invokes
`openLightbox`/`onNavigate` only with indices of existing images, since
its buttons, keyboard handler and dots are all bounds-checked. -/
def ValidCarEvent (images : List CarouselImage) (e : CarEvent) : Prop :=
  match e with
  | CarEvent.slide targetIndex => 0 ≤ targetIndex ∧ targetIndex < (images.length : Int)
  | CarEvent.openLightbox index => 0 ≤ index ∧ index < (images.length : Int)
  | CarEvent.lightboxNavigate index => 0 ≤ index ∧ index < (images.length : Int)
  | _ => True

/-- States reachable from a mounted carousel through any sequence of
deliverable events. -/
inductive ReachableCar (images : List CarouselImage) (cfg : CarouselConfig) :
    CarState → Prop where
  | init (breakpoint : Option Breakpoint) :
      ReachableCar images cfg (initCarState images cfg breakpoint)
  | step (s : CarState) (e : CarEvent) :
      ReachableCar images cfg s → ValidCarEvent images e →
      ReachableCar images cfg (stepCar images cfg s e)

/-- User navigation gestures on the rendered `Carousel` component. -/
inductive UserNav where
  | nextButton
  | prevButton
  | dotClick (slideIndex : Int)
  | swipe (touchState : TouchState)

/-- Effect of `goToNext` on the autoplay timers: none — the callback
never touches them (it is itself the autoplay tick). -/
def goToNextTimers (_params : NavigationParams) (timers : AutoplayTimers)
    (_config : AutoplayRestartConfig) : AutoplayTimers :=
  timers

/-- Effect of `goToPrevious` on the autoplay timers: it calls
`restartAutoplay` after a successful navigation. -/
def goToPreviousTimers (params : NavigationParams) (timers : AutoplayTimers)
    (config : AutoplayRestartConfig) : AutoplayTimers :=
  if (getPreviousIndex params).shouldNavigate then
    restartAutoplayWithDelay timers config
  else
    timers

/-- Effect of `goToSlide` on the autoplay timers: it calls
`restartAutoplay` after a successful navigation. -/
def goToSlideTimers (targetIndex : Int) (params : NavigationParams)
    (timers : AutoplayTimers) (config : AutoplayRestartConfig) : AutoplayTimers :=
  if (getSlideIndex targetIndex params.currentIndex params.isTransitioning).shouldNavigate then
    restartAutoplayWithDelay timers config
  else
    timers

/-- Effect of `handleTouchEnd` on the autoplay timers: for a detected
next swipe it calls `goToNext()` then `restartAutoplay()`; for a
previous swipe it calls `goToPrevious()` (which restarts internally);
with no swipe it does nothing. -/
def touchEndTimers (touchState : TouchState) (touchConfig : TouchHandlerConfig)
    (params : NavigationParams) (timers : AutoplayTimers)
    (config : AutoplayRestartConfig) : AutoplayTimers :=
  match detectSwipeDirection touchState touchConfig with
  | some SwipeDirection.next =>
      restartAutoplayWithDelay (goToNextTimers params timers config) config
  | some SwipeDirection.previous =>
      goToPreviousTimers params timers config
  | none => timers

/-- Effect of one user navigation on the autoplay timers, following the
wiring of the `Carousel` component: the next button calls `goToNext()`
alone, the previous button `goToPrevious()`, a dot click
`goToSlide(slideIndex)`, and a completed touch gesture runs
`handleTouchEnd`. -/
def userNavTimers (nav : UserNav) (touchConfig : TouchHandlerConfig)
    (params : NavigationParams) (timers : AutoplayTimers)
    (config : AutoplayRestartConfig) : AutoplayTimers :=
  match nav with
  | UserNav.nextButton => goToNextTimers params timers config
  | UserNav.prevButton => goToPreviousTimers params timers config
  | UserNav.dotClick slideIndex => goToSlideTimers slideIndex params timers config
  | UserNav.swipe touchState => touchEndTimers touchState touchConfig params timers config

/-- Sample image used to instantiate single-image scenarios. -/
def imgSolo : CarouselImage :=
  { alt := "Solo" }

/-- Sample image used to instantiate multi-image scenarios. -/
def imgA : CarouselImage :=
  { alt := "First", caption := some "Dunes" }

/-- Second sample image for multi-image scenarios. -/
def imgB : CarouselImage :=
  { alt := "Second" }

/-- Sample two-image list. -/
def imagesPair : List CarouselImage :=
  [imgA, imgB]

/-- Carousel configuration with the default props of `useCarousel`
(`itemsToShow = 1`, `loop = true`, slide transitions, 300 ms). -/
def cfgBase : CarouselConfig :=
  {}

/-- Touch configuration as built by `useCarousel`
(`minSwipeDistance: 50`). -/
def touchConfigBase : TouchHandlerConfig :=
  { orientation := Orientation.horizontal, minSwipeDistance := some 50 }

/-- Navigation parameters of an idle five-image looping carousel. -/
def navParamsW : NavigationParams :=
  { currentIndex := 0, totalImages := 5, effectiveItemsToShow := 1,
    loop := true, transitionType := TransitionType.slide,
    isTransitioning := false, transitionDuration := 300 }

/-- Autoplay timer state with the repeating interval running. -/
def timersRunning : AutoplayTimers :=
  { autoplayTimer := some 5000, autoplayPauseTimeout := none }

/-- Autoplay restart configuration as assembled by `restartAutoplay` in
`useCarousel` for a multi-image autoplaying carousel. -/
def autoConfigW : AutoplayRestartConfig :=
  { autoplay := true, isSingleImage := false, isMinimized := false,
    autoplayInterval := 5000, pauseDuration := some 2000 }

/-- Autoplay configuration of a single-image carousel. -/
def autoConfigSingle : AutoplayRestartConfig :=
  { autoplay := true, isSingleImage := true, isMinimized := false,
    autoplayInterval := 5000 }

/-- Expanded carousel state sitting on slide 2. -/
def stateAtTwo : CarState :=
  { currentIndex := 2, isTransitioning := false, savedIndex := 0,
    internalMinimized := false, effectiveItemsToShow := 1,
    lightboxOpen := false, lightboxIndex := 0, announcement := "" }

end Carousel

namespace Lightbox

/-- Zoom and pan state of the `Lightbox` component: the `useState` cells
`zoom`, `pan`, `isDragging`, `dragStart` plus the refs
`touchDistanceRef` (pinch start distance, `none` embedding `null`) and
`touchZoomRef` (zoom at pinch start). -/
structure LbState where
  zoom : ℚ
  panX : ℚ
  panY : ℚ
  isDragging : Bool
  dragStartX : ℚ
  dragStartY : ℚ
  touchDistance : Option ℚ
  touchZoom : ℚ
deriving DecidableEq, Repr

/-- State of a freshly opened lightbox session. -/
def initLbState : LbState :=
  { zoom := 1, panX := 0, panY := 0, isDragging := false,
    dragStartX := 0, dragStartY := 0, touchDistance := none, touchZoom := 1 }

/-- Events delivered to the lightbox zoom and pan handlers.  Touch
events are classified by their finger count as the handlers do via
`e.touches.length`; for two-finger events the handlers only ever read
`Math.hypot` of the two points, so the event carries that distance
directly. -/
inductive LbEvent where
  | zoomInButton
  | zoomOutButton
  | resetZoomButton
  | wheel (ctrlOrMeta : Bool) (deltaYPositive : Bool)
  | touchStartTwo (distance : ℚ)
  | touchStartOne (x y : ℚ)
  | touchMoveTwo (distance : ℚ)
  | touchMoveOne (x y : ℚ)
  | touchEnd
  | mouseDown (x y : ℚ) (button : ℕ)
  | mouseMove (x y : ℚ)
  | mouseUp
  | indexChange

/-- Shared clamp-and-reset tail of `handleWheel` and the pinch branch of
`handleTouchMove`: `Math.max(1, Math.min(5, value))`, resetting the pan
when the clamped zoom is exactly 1. -/
def applyClampedZoom (s : LbState) (value : ℚ) : LbState :=
  let newZoom := max 1 (min 5 value)
  if newZoom = 1 then
    { s with zoom := newZoom, panX := 0, panY := 0 }
  else
    { s with zoom := newZoom }

/-- One step of the lightbox zoom and pan logic, embedding
`handleZoomIn`, `handleZoomOut`, `handleResetZoom`, `handleWheel`,
`handleTouchStart`, `handleTouchMove`, `handleTouchEnd`,
`handleMouseDown`, `handleMouseMove`, `handleMouseUp`, and the effect
resetting zoom and pan when `currentIndex` changes. -/
def stepLb (s : LbState) (e : LbEvent) : LbState :=
  match e with
  | LbEvent.zoomInButton =>
      { s with zoom := min (s.zoom + 1/4) 5 }
  | LbEvent.zoomOutButton =>
      let newZoom := max (s.zoom - 1/4) 1
      if newZoom = 1 then
        { s with zoom := newZoom, panX := 0, panY := 0 }
      else
        { s with zoom := newZoom }
  | LbEvent.resetZoomButton =>
      { s with zoom := 1, panX := 0, panY := 0 }
  | LbEvent.wheel ctrlOrMeta deltaYPositive =>
      if ctrlOrMeta then
        let delta : ℚ := if deltaYPositive then -(1/10) else 1/10
        applyClampedZoom s (s.zoom + delta)
      else
        s
  | LbEvent.touchStartTwo distance =>
      { s with touchDistance := some distance, touchZoom := s.zoom }
  | LbEvent.touchStartOne x y =>
      if s.zoom > 1 then
        { s with isDragging := true, dragStartX := x - s.panX, dragStartY := y - s.panY }
      else
        s
  | LbEvent.touchMoveTwo distance =>
      match s.touchDistance with
      | some startDistance =>
          let scale := distance / startDistance
          applyClampedZoom s (s.touchZoom * scale)
      | none => s
  | LbEvent.touchMoveOne x y =>
      if s.isDragging ∧ s.zoom > 1 then
        { s with panX := x - s.dragStartX, panY := y - s.dragStartY }
      else
        s
  | LbEvent.touchEnd =>
      { s with touchDistance := none, isDragging := false }
  | LbEvent.mouseDown x y button =>
      if s.zoom > 1 ∧ button = 0 then
        { s with isDragging := true, dragStartX := x - s.panX, dragStartY := y - s.panY }
      else
        s
  | LbEvent.mouseMove x y =>
      if s.isDragging ∧ s.zoom > 1 then
        { s with panX := x - s.dragStartX, panY := y - s.dragStartY }
      else
        s
  | LbEvent.mouseUp =>
      { s with isDragging := false }
  | LbEvent.indexChange =>
      { s with zoom := 1, panX := 0, panY := 0 }

/-- Physically deliverable touch events: `Math.hypot` of two distinct
touch points is positive (a zero initial distance would divide by zero
in the scale computation), and any pinch distance is nonnegative. -/
def ValidLbEvent (e : LbEvent) : Prop :=
  match e with
  | LbEvent.touchStartTwo distance => 0 < distance
  | LbEvent.touchMoveTwo distance => 0 ≤ distance
  | _ => True

/-- Lightbox states reachable in one open session through any sequence
of deliverable zoom, pan, and navigation events. -/
inductive ReachableLb : LbState → Prop where
  | init : ReachableLb initLbState
  | step (s : LbState) (e : LbEvent) :
      ReachableLb s → ValidLbEvent e → ReachableLb (stepLb s e)

end Lightbox

namespace Carousel

/-- JavaScript remainder on nonnegative operands agrees with the
mathematical modulus and stays inside `[0, n)`. -/
theorem tmod_mem_of_nonneg (a n : Int) (ha : 0 ≤ a) (hn : 0 < n) :
    0 ≤ a.tmod n ∧ a.tmod n < n := by
  rw [Int.tmod_eq_emod ha (le_of_lt hn)]
  exact ⟨Int.emod_nonneg _ (by omega), Int.emod_lt_of_pos _ hn⟩

/-- The successor index computed by `calculateNextIndex` stays inside
`[0, totalImages)` whenever the inputs do. -/
theorem calculateNextIndex_mem (i n eff : Int) (loop : Bool) (t : TransitionType)
    (h0 : 0 ≤ i) (hi : i < n) (he1 : 1 ≤ eff) (he2 : eff ≤ n) :
    0 ≤ calculateNextIndex i n eff loop t ∧ calculateNextIndex i n eff loop t < n := by
  unfold calculateNextIndex
  split_ifs with hl hf
  · exact tmod_mem_of_nonneg _ _ (by omega) (by omega)
  · omega
  · omega

/-- The predecessor index computed by `calculatePreviousIndex` stays
inside `[0, totalImages)` whenever the inputs do. -/
theorem calculatePreviousIndex_mem (i n : Int) (loop : Bool)
    (h0 : 0 ≤ i) (hi : i < n) :
    0 ≤ calculatePreviousIndex i n loop ∧ calculatePreviousIndex i n loop < n := by
  unfold calculatePreviousIndex
  split_ifs with hl
  · exact tmod_mem_of_nonneg _ _ (by omega) (by omega)
  · omega

/-- Navigation only rewrites `currentIndex` and bookkeeping fields; the
saved index, the effective item count and the lightbox index survive
`applyNavigation` unchanged, and the new current index is either the
computed one or the old one. -/
theorem applyNavigation_fields (images : List CarouselImage) (s : CarState)
    (r : NavigationResult) :
    (applyNavigation images s r).savedIndex = s.savedIndex
    ∧ (applyNavigation images s r).effectiveItemsToShow = s.effectiveItemsToShow
    ∧ (applyNavigation images s r).lightboxIndex = s.lightboxIndex
    ∧ ((applyNavigation images s r).currentIndex = r.nextIndex
        ∨ (applyNavigation images s r).currentIndex = s.currentIndex) := by
  unfold applyNavigation
  split_ifs <;> simp

/-- Result index of `getNextIndex` stays in range. -/
theorem getNextIndex_mem (p : NavigationParams)
    (hc0 : 0 ≤ p.currentIndex) (hc1 : p.currentIndex < p.totalImages)
    (he1 : 1 ≤ p.effectiveItemsToShow) (he2 : p.effectiveItemsToShow ≤ p.totalImages) :
    0 ≤ (getNextIndex p).nextIndex ∧ (getNextIndex p).nextIndex < p.totalImages := by
  unfold getNextIndex
  split_ifs
  · exact ⟨hc0, hc1⟩
  · exact calculateNextIndex_mem _ _ _ _ _ hc0 hc1 he1 he2

/-- Result index of `getPreviousIndex` stays in range. -/
theorem getPreviousIndex_mem (p : NavigationParams)
    (hc0 : 0 ≤ p.currentIndex) (hc1 : p.currentIndex < p.totalImages) :
    0 ≤ (getPreviousIndex p).nextIndex ∧ (getPreviousIndex p).nextIndex < p.totalImages := by
  unfold getPreviousIndex
  split_ifs
  · exact ⟨hc0, hc1⟩
  · exact calculatePreviousIndex_mem _ _ _ hc0 hc1

/-- Result index of `getSlideIndex` stays in range when both the target
and the current index do. -/
theorem getSlideIndex_mem (targetIndex currentIndex : Int) (tr : Bool) (n : Int)
    (ht0 : 0 ≤ targetIndex) (ht1 : targetIndex < n)
    (hc0 : 0 ≤ currentIndex) (hc1 : currentIndex < n) :
    0 ≤ (getSlideIndex targetIndex currentIndex tr).nextIndex
    ∧ (getSlideIndex targetIndex currentIndex tr).nextIndex < n := by
  unfold getSlideIndex
  split_ifs
  · exact ⟨hc0, hc1⟩
  · exact ⟨ht0, ht1⟩

/-- Inductive invariant of the carousel engine: every index field stays
inside `[0, images.length)` and the effective item count inside
`[1, images.length]`, along every reachable state of a non-empty
carousel. -/
theorem carReachable_invariant (images : List CarouselImage) (cfg : CarouselConfig)
    (hne : 1 ≤ (images.length : Int)) (s : CarState)
    (h : ReachableCar images cfg s) :
    (0 ≤ s.currentIndex ∧ s.currentIndex < (images.length : Int))
    ∧ (0 ≤ s.savedIndex ∧ s.savedIndex < (images.length : Int))
    ∧ (1 ≤ s.effectiveItemsToShow ∧ s.effectiveItemsToShow ≤ (images.length : Int))
    ∧ (0 ≤ s.lightboxIndex ∧ s.lightboxIndex < (images.length : Int)) := by
  induction h with
  | init breakpoint =>
      refine ⟨?_, ?_, ?_, ?_⟩ <;>
        simp only [initCarState, calculateEffectiveItemsToShow] <;> omega
  | step s e hs hv ih =>
      obtain ⟨⟨hc0, hc1⟩, ⟨hs0, hs1⟩, ⟨he1, he2⟩, ⟨hl0, hl1⟩⟩ := ih
      cases e with
      | next =>
          obtain ⟨f1, f2, f3, f4⟩ := applyNavigation_fields images s
            (getNextIndex (navParamsOf images cfg s))
          have hmem := getNextIndex_mem (navParamsOf images cfg s) hc0 hc1 he1 he2
          simp only [navParamsOf] at hmem
          simp only [stepCar]
          rw [f1, f2, f3]
          refine ⟨?_, ⟨hs0, hs1⟩, ⟨he1, he2⟩, ⟨hl0, hl1⟩⟩
          rcases f4 with hcur | hcur <;> rw [hcur]
          · exact hmem
          · exact ⟨hc0, hc1⟩
      | prev =>
          obtain ⟨f1, f2, f3, f4⟩ := applyNavigation_fields images s
            (getPreviousIndex (navParamsOf images cfg s))
          have hmem := getPreviousIndex_mem (navParamsOf images cfg s) hc0 hc1
          simp only [navParamsOf] at hmem
          simp only [stepCar]
          rw [f1, f2, f3]
          refine ⟨?_, ⟨hs0, hs1⟩, ⟨he1, he2⟩, ⟨hl0, hl1⟩⟩
          rcases f4 with hcur | hcur <;> rw [hcur]
          · exact hmem
          · exact ⟨hc0, hc1⟩
      | slide targetIndex =>
          obtain ⟨hv0, hv1⟩ := hv
          obtain ⟨f1, f2, f3, f4⟩ := applyNavigation_fields images s
            (getSlideIndex targetIndex s.currentIndex s.isTransitioning)
          have hmem := getSlideIndex_mem targetIndex s.currentIndex s.isTransitioning
            (images.length : Int) hv0 hv1 hc0 hc1
          simp only [stepCar]
          rw [f1, f2, f3]
          refine ⟨?_, ⟨hs0, hs1⟩, ⟨he1, he2⟩, ⟨hl0, hl1⟩⟩
          rcases f4 with hcur | hcur <;> rw [hcur]
          · exact hmem
          · exact ⟨hc0, hc1⟩
      | minimizeToggle =>
          obtain ⟨ci, it, si, im, eff, lo, li, ann⟩ := s
          cases im
          · exact ⟨⟨hc0, hc1⟩, ⟨hc0, hc1⟩, ⟨he1, he2⟩, ⟨hl0, hl1⟩⟩
          · exact ⟨⟨hs0, hs1⟩, ⟨hs0, hs1⟩, ⟨he1, he2⟩, ⟨hl0, hl1⟩⟩
      | openLightbox index =>
          exact ⟨⟨hc0, hc1⟩, ⟨hs0, hs1⟩, ⟨he1, he2⟩, hv⟩
      | closeLightbox =>
          exact ⟨⟨hc0, hc1⟩, ⟨hs0, hs1⟩, ⟨he1, he2⟩, ⟨hl0, hl1⟩⟩
      | lightboxNavigate index =>
          exact ⟨hv, ⟨hs0, hs1⟩, ⟨he1, he2⟩, hv⟩
      | transitionEnd =>
          exact ⟨⟨hc0, hc1⟩, ⟨hs0, hs1⟩, ⟨he1, he2⟩, ⟨hl0, hl1⟩⟩
      | breakpointChange breakpoint =>
          refine ⟨⟨hc0, hc1⟩, ⟨hs0, hs1⟩, ?_, ⟨hl0, hl1⟩⟩
          simp only [stepCar, calculateEffectiveItemsToShow]
          omega

end Carousel

namespace Lightbox

/-- Clamping tail of the zoom handlers: the result of
`applyClampedZoom` always lies in `[1, 5]` and resets the pan exactly
when it lands on 1. -/
theorem applyClampedZoom_inv (s : LbState) (v : ℚ) :
    1 ≤ (applyClampedZoom s v).zoom
    ∧ (applyClampedZoom s v).zoom ≤ 5
    ∧ ((applyClampedZoom s v).zoom = 1 →
        (applyClampedZoom s v).panX = 0 ∧ (applyClampedZoom s v).panY = 0) := by
  simp only [applyClampedZoom]
  split_ifs with h
  · exact ⟨by rw [h], by rw [h]; norm_num, fun _ => ⟨rfl, rfl⟩⟩
  · exact ⟨le_max_left 1 _, max_le (by norm_num) (min_le_left 5 v), fun hz => absurd hz h⟩

/-- Inductive invariant of the lightbox session: the zoom factor stays
in `[1, 5]` and the pan offset is the origin whenever the zoom factor
is exactly 1, along every reachable state. -/
theorem lbReachable_invariant (s : LbState) (h : ReachableLb s) :
    1 ≤ s.zoom ∧ s.zoom ≤ 5 ∧ (s.zoom = 1 → s.panX = 0 ∧ s.panY = 0) := by
  induction h with
  | init =>
      exact ⟨le_refl 1, by show (1 : ℚ) ≤ 5; norm_num, fun _ => ⟨rfl, rfl⟩⟩
  | step s e hs hv ih =>
      obtain ⟨h1, h5, hp⟩ := ih
      cases e with
      | zoomInButton =>
          refine ⟨le_min (by linarith) (by norm_num), min_le_right _ 5, fun hz => ?_⟩
          exfalso
          have hlt : (1 : ℚ) < min (s.zoom + 1/4) 5 := lt_min (by linarith) (by norm_num)
          have hz2 : min (s.zoom + 1/4) 5 = (1 : ℚ) := hz
          rw [hz2] at hlt
          exact absurd hlt (lt_irrefl 1)
      | zoomOutButton =>
          simp only [stepLb]
          split_ifs with hz
          · exact ⟨by rw [hz], by rw [hz]; norm_num, fun _ => ⟨rfl, rfl⟩⟩
          · exact ⟨le_max_right _ 1, max_le (by linarith) (by norm_num), fun hc => absurd hc hz⟩
      | resetZoomButton =>
          exact ⟨le_refl 1, by show (1 : ℚ) ≤ 5; norm_num, fun _ => ⟨rfl, rfl⟩⟩
      | wheel ctrlOrMeta deltaYPositive =>
          simp only [stepLb]
          split_ifs
          · exact applyClampedZoom_inv s _
          · exact applyClampedZoom_inv s _
          · exact ⟨h1, h5, hp⟩
      | touchStartTwo distance =>
          exact ⟨h1, h5, hp⟩
      | touchStartOne x y =>
          simp only [stepLb]
          split_ifs with hd
          · exact ⟨h1, h5, fun hz => hp hz⟩
          · exact ⟨h1, h5, hp⟩
      | touchMoveTwo distance =>
          simp only [stepLb]
          cases htd : s.touchDistance with
          | none => exact ⟨h1, h5, hp⟩
          | some startDistance => exact applyClampedZoom_inv s _
      | touchMoveOne x y =>
          simp only [stepLb]
          split_ifs with hd
          · refine ⟨h1, h5, fun hz => ?_⟩
            exfalso
            have hz2 : s.zoom = 1 := hz
            linarith [hd.2]
          · exact ⟨h1, h5, hp⟩
      | touchEnd =>
          exact ⟨h1, h5, hp⟩
      | mouseDown x y button =>
          simp only [stepLb]
          split_ifs with hd
          · exact ⟨h1, h5, fun hz => hp hz⟩
          · exact ⟨h1, h5, hp⟩
      | mouseMove x y =>
          simp only [stepLb]
          split_ifs with hd
          · refine ⟨h1, h5, fun hz => ?_⟩
            exfalso
            have hz2 : s.zoom = 1 := hz
            linarith [hd.2]
          · exact ⟨h1, h5, hp⟩
      | mouseUp =>
          exact ⟨h1, h5, hp⟩
      | indexChange =>
          exact ⟨le_refl 1, by show (1 : ℚ) ≤ 5; norm_num, fun _ => ⟨rfl, rfl⟩⟩

end Lightbox

open Carousel Lightbox

/-- C1: for every non-empty image list and every valid configuration,
after every sequence of carousel operations (goToNext, goToPrevious,
goToSlide, minimize and restore, lightbox-driven navigation) delivered
by the rendered component, the invariant
0 ≤ currentIndex < images.length holds. -/
theorem carousel_currentIndex_in_range (images : List CarouselImage)
    (cfg : CarouselConfig) (s : CarState)
    (hne : images ≠ []) (hs : ReachableCar images cfg s) :
    0 ≤ s.currentIndex ∧ s.currentIndex < (images.length : Int) := by
  have hlen : 1 ≤ (images.length : Int) := by
    have : images.length ≠ 0 := fun h => hne (List.length_eq_zero.mp h)
    omega
  exact (carReachable_invariant images cfg hlen s hs).1

/-- Witness for C1: a two-image carousel after one goToNext has its
current index inside the range. -/
theorem carousel_currentIndex_in_range_witness :
    0 ≤ (stepCar imagesPair cfgBase
          (initCarState imagesPair cfgBase none) CarEvent.next).currentIndex
    ∧ (stepCar imagesPair cfgBase
          (initCarState imagesPair cfgBase none) CarEvent.next).currentIndex
        < (imagesPair.length : Int) :=
  carousel_currentIndex_in_range imagesPair cfgBase _
    (by decide)
    (ReachableCar.step _ CarEvent.next (ReachableCar.init none) trivial)

/-- C2: for an image list of length n ≥ 2 and a current index i in range,
not mid-transition: with loop the next index is (i+1) mod n and the
previous index is (i-1+n) mod n; without loop the next index clamps at
n - effectiveItemsToShow for slide transitions and at n - 1 for fade
transitions, the previous index clamps at 0, and goToNext invoked at
either clamp leaves the index unchanged. -/
theorem carousel_nav_index_formula (i n eff td : Int) (t : TransitionType)
    (hn : 2 ≤ n) (h0 : 0 ≤ i) (hi : i < n) :
    ((getNextIndex { currentIndex := i, totalImages := n, effectiveItemsToShow := eff,
                     loop := true, transitionType := t, isTransitioning := false,
                     transitionDuration := td }).nextIndex = (i + 1) % n
      ∧ (getPreviousIndex { currentIndex := i, totalImages := n, effectiveItemsToShow := eff,
                            loop := true, transitionType := t, isTransitioning := false,
                            transitionDuration := td }).nextIndex = (i - 1 + n) % n)
    ∧ ((getNextIndex { currentIndex := i, totalImages := n, effectiveItemsToShow := eff,
                       loop := false, transitionType := TransitionType.slide,
                       isTransitioning := false, transitionDuration := td }).nextIndex
          = min (i + 1) (n - eff)
      ∧ (getNextIndex { currentIndex := i, totalImages := n, effectiveItemsToShow := eff,
                        loop := false, transitionType := TransitionType.fade,
                        isTransitioning := false, transitionDuration := td }).nextIndex
          = min (i + 1) (n - 1)
      ∧ (getPreviousIndex { currentIndex := i, totalImages := n, effectiveItemsToShow := eff,
                            loop := false, transitionType := t, isTransitioning := false,
                            transitionDuration := td }).nextIndex = max (i - 1) 0
      ∧ (i = n - eff →
          (getNextIndex { currentIndex := i, totalImages := n, effectiveItemsToShow := eff,
                          loop := false, transitionType := TransitionType.slide,
                          isTransitioning := false, transitionDuration := td }).nextIndex = i)
      ∧ (i = n - 1 →
          (getNextIndex { currentIndex := i, totalImages := n, effectiveItemsToShow := eff,
                          loop := false, transitionType := TransitionType.fade,
                          isTransitioning := false, transitionDuration := td }).nextIndex = i)) := by
  refine ⟨⟨?_, ?_⟩, ?_, ?_, ?_, ?_, ?_⟩
  · show (i + 1).tmod n = (i + 1) % n
    exact Int.tmod_eq_emod (by omega) (by omega)
  · show (i - 1 + n).tmod n = (i - 1 + n) % n
    exact Int.tmod_eq_emod (by omega) (by omega)
  · rfl
  · rfl
  · rfl
  · intro h
    show min (i + 1) (n - eff) = i
    omega
  · intro h
    show min (i + 1) (n - 1) = i
    omega

/-- Witness for C2: a looping three-image carousel at index 1 advances
to (1+1) mod 3 = 2. -/
theorem carousel_nav_index_formula_witness :
    (getNextIndex { currentIndex := 1, totalImages := 3, effectiveItemsToShow := 2,
                    loop := true, transitionType := TransitionType.slide,
                    isTransitioning := false, transitionDuration := 300 }).nextIndex
      = (1 + 1) % 3 :=
  (carousel_nav_index_formula 1 3 2 300 TransitionType.slide
    (by norm_num) (by norm_num) (by norm_num)).1.1

/-- C3 counterexample: on a single-image carousel that is not
mid-transition, goToNext is not silent — it does start a transition and
does emit an accessibility announcement, contradicting the claim that
no transition is started and no announcement is emitted. -/
theorem singleImage_goToNext_not_silent :
    (stepCar [imgSolo] cfgBase (initCarState [imgSolo] cfgBase none)
        CarEvent.next).isTransitioning = true
    ∧ (stepCar [imgSolo] cfgBase (initCarState [imgSolo] cfgBase none)
        CarEvent.next).announcement = "Image 1 of 1. Solo"
    ∧ (stepCar [imgSolo] cfgBase (initCarState [imgSolo] cfgBase none)
        CarEvent.next).announcement ≠ "" :=
  ⟨rfl, rfl, by decide⟩

/-- C3 amended: with a single image, goToNext and goToPrevious leave the
current index at 0 and starting autoplay creates no timer; however, when
not mid-transition they still start a transition and emit an
announcement. -/
theorem singleImage_index_fixed_no_timer (img : CarouselImage)
    (cfg : CarouselConfig) (s : CarState) (timers : AutoplayTimers)
    (config : AutoplayRestartConfig)
    (hcur : s.currentIndex = 0) (heff : s.effectiveItemsToShow = 1)
    (hsingle : config.isSingleImage = true) :
    (stepCar [img] cfg s CarEvent.next).currentIndex = 0
    ∧ (stepCar [img] cfg s CarEvent.prev).currentIndex = 0
    ∧ startAutoplayTimer timers config = timers := by
  refine ⟨?_, ?_, ?_⟩
  · obtain ⟨-, -, -, f4⟩ := applyNavigation_fields [img] s
      (getNextIndex (navParamsOf [img] cfg s))
    have hm := getNextIndex_mem (navParamsOf [img] cfg s)
      (by simp [navParamsOf, hcur]) (by simp [navParamsOf, hcur])
      (by simp [navParamsOf, heff]) (by simp [navParamsOf, heff])
    have hT : (navParamsOf [img] cfg s).totalImages = 1 := by simp [navParamsOf]
    rw [hT] at hm
    simp only [stepCar]
    rcases f4 with h | h <;> rw [h]
    · omega
    · exact hcur
  · obtain ⟨-, -, -, f4⟩ := applyNavigation_fields [img] s
      (getPreviousIndex (navParamsOf [img] cfg s))
    have hm := getPreviousIndex_mem (navParamsOf [img] cfg s)
      (by simp [navParamsOf, hcur]) (by simp [navParamsOf, hcur])
    have hT : (navParamsOf [img] cfg s).totalImages = 1 := by simp [navParamsOf]
    rw [hT] at hm
    simp only [stepCar]
    rcases f4 with h | h <;> rw [h]
    · omega
    · exact hcur
  · simp [startAutoplayTimer, hsingle]

/-- Witness for C3 amended: the initial single-image carousel keeps
index 0 under goToNext and autoplay start leaves the empty timer state
unchanged. -/
theorem singleImage_index_fixed_no_timer_witness :
    (stepCar [imgSolo] cfgBase (initCarState [imgSolo] cfgBase none)
        CarEvent.next).currentIndex = 0
    ∧ startAutoplayTimer { autoplayTimer := none, autoplayPauseTimeout := none }
        autoConfigSingle = { autoplayTimer := none, autoplayPauseTimeout := none } :=
  ⟨(singleImage_index_fixed_no_timer imgSolo cfgBase
      (initCarState [imgSolo] cfgBase none)
      { autoplayTimer := none, autoplayPauseTimeout := none }
      autoConfigSingle rfl (by decide) rfl).1,
   (singleImage_index_fixed_no_timer imgSolo cfgBase
      (initCarState [imgSolo] cfgBase none)
      { autoplayTimer := none, autoplayPauseTimeout := none }
      autoConfigSingle rfl (by decide) rfl).2.2⟩

/-- C4: with autoplay running on a multi-image carousel, a press of the
next navigation button (which calls goToNext alone) leaves the autoplay
interval timer running and schedules no resume, while the previous
button, a dot click and swipe gestures all pause the interval and
schedule the 2000 ms resume, which a repeated interaction reschedules;
this exhibits the divergence of the next button from the claimed
behaviour of every user-initiated navigation. -/
theorem nextButton_leaves_autoplay_running :
    userNavTimers UserNav.nextButton touchConfigBase navParamsW
        timersRunning autoConfigW = timersRunning
    ∧ userNavTimers UserNav.prevButton touchConfigBase navParamsW
        timersRunning autoConfigW
        = { autoplayTimer := none, autoplayPauseTimeout := some 2000 }
    ∧ userNavTimers (UserNav.dotClick 2) touchConfigBase navParamsW
        timersRunning autoConfigW
        = { autoplayTimer := none, autoplayPauseTimeout := some 2000 }
    ∧ userNavTimers (UserNav.swipe { touchStart := some 100, touchEnd := some 30 })
        touchConfigBase navParamsW timersRunning autoConfigW
        = { autoplayTimer := none, autoplayPauseTimeout := some 2000 }
    ∧ restartAutoplayWithDelay
        { autoplayTimer := none, autoplayPauseTimeout := some 2000 } autoConfigW
        = { autoplayTimer := none, autoplayPauseTimeout := some 2000 } := by
  have hdet : detectSwipeDirection { touchStart := some 100, touchEnd := some 30 }
      touchConfigBase = some SwipeDirection.next := by
    norm_num [detectSwipeDirection, jsFalsyCoordinate, touchConfigBase]
  refine ⟨rfl, rfl, rfl, ?_, rfl⟩
  simp [userNavTimers, touchEndTimers, hdet, goToNextTimers, restartAutoplayWithDelay,
    autoConfigW, clearAllAutoplayTimers, clearAutoplayTimer, clearAutoplayPauseTimeout,
    timersRunning]

/-- C5: in the lightbox, the zoom factor stays within [1, 5] under every
sequence of wheel-zoom, pinch-zoom, zoom-button, pan and navigation
events (repeated zoom-in never exceeds 5), and whenever the zoom factor
equals 1 the pan offset is exactly the origin. -/
theorem lightbox_zoom_invariant (s : LbState) (hs : ReachableLb s) :
    1 ≤ s.zoom ∧ s.zoom ≤ 5 ∧ (s.zoom = 1 → s.panX = 0 ∧ s.panY = 0) :=
  lbReachable_invariant s hs

/-- Witness for C5: the state after one zoom-in button press from a
fresh session satisfies the invariant. -/
theorem lightbox_zoom_invariant_witness :
    1 ≤ (stepLb initLbState LbEvent.zoomInButton).zoom
    ∧ (stepLb initLbState LbEvent.zoomInButton).zoom ≤ 5
    ∧ ((stepLb initLbState LbEvent.zoomInButton).zoom = 1 →
        (stepLb initLbState LbEvent.zoomInButton).panX = 0
        ∧ (stepLb initLbState LbEvent.zoomInButton).panY = 0) :=
  lightbox_zoom_invariant _
    (ReachableLb.step _ LbEvent.zoomInButton ReachableLb.init trivial)

/-- C6: from any expanded state, minimizing saves the current index into
the saved-index field and the subsequent restore brings the current
index back to it — the round trip is the identity on the index. -/
theorem minimize_restore_roundtrip (images : List CarouselImage)
    (cfg : CarouselConfig) (s : CarState) (h : s.internalMinimized = false) :
    (stepCar images cfg s CarEvent.minimizeToggle).savedIndex = s.currentIndex
    ∧ (stepCar images cfg s CarEvent.minimizeToggle).internalMinimized = true
    ∧ (stepCar images cfg (stepCar images cfg s CarEvent.minimizeToggle)
        CarEvent.minimizeToggle).currentIndex = s.currentIndex
    ∧ (stepCar images cfg (stepCar images cfg s CarEvent.minimizeToggle)
        CarEvent.minimizeToggle).internalMinimized = false := by
  obtain ⟨ci, it, si, im, eff, lo, li, ann⟩ := s
  subst h
  exact ⟨rfl, rfl, rfl, rfl⟩

/-- Witness for C6: an expanded carousel at index 2 returns to index 2
after minimize followed by restore. -/
theorem minimize_restore_roundtrip_witness :
    (stepCar imagesPair cfgBase (stepCar imagesPair cfgBase stateAtTwo
        CarEvent.minimizeToggle) CarEvent.minimizeToggle).currentIndex = 2 :=
  (minimize_restore_roundtrip imagesPair cfgBase stateAtTwo rfl).2.2.1

/-- C7: for a completed touch gesture whose recorded start and end
coordinates on the orientation axis are present samples (nonzero), with
distance = start - end: a distance below 50 px in absolute value emits
no navigation, a distance above 50 px emits next, and a distance below
-50 px emits previous. -/
theorem swipe_threshold_classification (a b : ℚ) (o : Orientation)
    (ha : a ≠ 0) (hb : b ≠ 0) :
    (|a - b| < 50 →
      (touchEndHandlerStep { touchStart := some a, touchEnd := some b }
        { orientation := o, minSwipeDistance := some 50 }).2 = none)
    ∧ (a - b > 50 →
      (touchEndHandlerStep { touchStart := some a, touchEnd := some b }
        { orientation := o, minSwipeDistance := some 50 }).2 = some SwipeDirection.next)
    ∧ (a - b < -50 →
      (touchEndHandlerStep { touchStart := some a, touchEnd := some b }
        { orientation := o, minSwipeDistance := some 50 }).2
        = some SwipeDirection.previous) := by
  have hfa : jsFalsyCoordinate (some a) = false := by
    simp [jsFalsyCoordinate, ha]
  have hfb : jsFalsyCoordinate (some b) = false := by
    simp [jsFalsyCoordinate, hb]
  refine ⟨?_, ?_, ?_⟩
  · intro hd
    simp [touchEndHandlerStep, detectSwipeDirection, hfa, hfb, hd]
  · intro hd
    have h1 : ¬ |a - b| < 50 := by
      have := le_abs_self (a - b)
      linarith
    simp [touchEndHandlerStep, detectSwipeDirection, hfa, hfb, h1, hd]
  · intro hd
    have h1 : ¬ |a - b| < 50 := by
      have := neg_le_abs (a - b)
      linarith
    have h2 : ¬ a - b > 50 := by linarith
    simp [touchEndHandlerStep, detectSwipeDirection, hfa, hfb, h1, h2, hd]

/-- Witness for C7: a gesture from 100 to 30 (distance 70 above the
50 px threshold) emits next. -/
theorem swipe_threshold_classification_witness :
    (touchEndHandlerStep { touchStart := some 100, touchEnd := some 30 }
      { orientation := Orientation.horizontal, minSwipeDistance := some 50 }).2
      = some SwipeDirection.next :=
  (swipe_threshold_classification 100 30 Orientation.horizontal
    (by norm_num) (by norm_num)).2.1 (by norm_num)

/-- C8 counterexample: a touch-end on the recorded gesture from 100 to
30 leaves the stored start and end coordinates exactly as they were —
the start coordinate is still recorded afterwards, contradicting the
claim that both coordinates are reset after every touch-end. -/
theorem touchEnd_does_not_reset_state :
    (touchEndHandlerStep { touchStart := some 100, touchEnd := some 30 }
        touchConfigBase).1
      = ({ touchStart := some 100, touchEnd := some 30 } : TouchState)
    ∧ (touchEndHandlerStep { touchStart := some 100, touchEnd := some 30 }
        touchConfigBase).1.touchStart ≠ none :=
  ⟨rfl, by simp [touchEndHandlerStep]⟩

/-- C8 amended: the touch-end handler leaves the gesture state
unchanged; the coordinates are reset only by the next touch-start, which
clears the end coordinate to null and overwrites the start
coordinate. -/
theorem touch_state_reset_at_touchStart (ts : TouchState)
    (config : TouchHandlerConfig) (c : ℚ) :
    (touchEndHandlerStep ts config).1 = ts
    ∧ (touchStartHandlerStep c).touchEnd = none
    ∧ (touchStartHandlerStep c).touchStart = some c :=
  ⟨rfl, rfl, rfl⟩

/-- C9 counterexample: index 5, made eligible by an intersection event
on a six-image carousel showing two items, is no longer a member of the
eligible set after the effect re-runs for a changed effectiveItemsToShow
of 1 — a subsequent event does remove it, contradicting monotonicity. -/
theorem lazyLoad_eligibility_revoked :
    5 ∈ lazyLoadObserverStep (getInitialImagesToLoad 2 6) 5 true
    ∧ 5 ∉ initialLoadEffectStep 1 6 := by
  decide

/-- C9 amended: eligibility is monotonic under intersection-observer
callbacks, which only ever insert indices; however, a change of
images.length or effectiveItemsToShow re-runs the initial-load effect,
which replaces the whole set with the initial window and can revoke
previously eligible indices. -/
theorem lazyLoad_observer_monotone (loadedImages : Finset ℕ) (index : ℕ)
    (isIntersecting : Bool) :
    loadedImages ⊆ lazyLoadObserverStep loadedImages index isIntersecting := by
  unfold lazyLoadObserverStep
  split_ifs
  · exact Finset.subset_insert _ _
  · exact Finset.Subset.refl _

/-- C10: when the recorded start or end coordinate on the orientation
axis is exactly 0, or one of them was never recorded, touch-end emits no
navigation in either direction regardless of the distance, because the
zero or absent coordinate is treated as a missing sample by the falsy
guard. -/
theorem zero_coordinate_suppresses_swipe (ts : TouchState)
    (config : TouchHandlerConfig)
    (h : ts.touchStart = none ∨ ts.touchStart = some 0
        ∨ ts.touchEnd = none ∨ ts.touchEnd = some 0) :
    (touchEndHandlerStep ts config).2 = none := by
  have hfalsy : jsFalsyCoordinate ts.touchStart = true
      ∨ jsFalsyCoordinate ts.touchEnd = true := by
    rcases h with h | h | h | h <;> rw [h] <;> simp [jsFalsyCoordinate]
  simp only [touchEndHandlerStep, detectSwipeDirection]
  rcases hfalsy with h2 | h2 <;> simp [h2]

/-- Witness for C10: a gesture recorded from coordinate 0 to coordinate
-60 travels 60 px yet emits nothing. -/
theorem zero_coordinate_suppresses_swipe_witness :
    (touchEndHandlerStep { touchStart := some 0, touchEnd := some (-60) }
      touchConfigBase).2 = none
    ∧ (0 : ℚ) - (-60) > 50 :=
  ⟨zero_coordinate_suppresses_swipe
      { touchStart := some 0, touchEnd := some (-60) } touchConfigBase
      (Or.inr (Or.inl rfl)),
   by norm_num⟩
